import Mathlib

/-!
Verification of the concurrent mark-and-sweep garbage collector in
`src/gc/GC.cpp` (class `ConcurrentGC`).

The embedding translates the collector's state and operations into Lean:

* A heap reference (`JType*`) is `Option JType`; a `JType` value is tagged by
  its runtime variant — `JObject` and `JArray` carry their heap `offset`, and
  `other` stands for any further `JType` subclass (the `SHOULD_NOT_REACH_HERE`
  branch of `ConcurrentGC::mark` dispatches on this tag, mirroring the
  `typeid` dispatch in the C++ code).
* The two mark bitmaps (`std::set<size_t>`) are duplicate-free lists of
  offsets built with `List.insert`; the heap containers are association lists
  keyed by offset.
* The recursive marker takes a fuel parameter: the C++ recursion has no
  termination guarantee on cyclic reference graphs, so exhausting fuel
  returns `MarkError.outOfFuel` (divergence), and the
  `SHOULD_NOT_REACH_HERE` abort returns `MarkError.shouldNotReachHere`.
* The concurrent task submissions of `markAndSweep`/`sweep` are
  sequentialized; since mark-set insertion is the only shared effect and it
  is commutative and idempotent, the resulting state is the same.  The
  coordinator's ordering of submissions, joins and phase starts is modelled
  separately as an event trace (`gcTrace`, `markAndSweepTrace`).
-/

namespace ConcurrentGC

/-- Runtime variant of a heap value reached through a `JType*`: a `JObject`
with its heap offset, a `JArray` with its heap offset, or any other `JType`
subclass (primitive wrappers etc.), as distinguished by `typeid` in
`ConcurrentGC::mark`. -/
inductive JType where
  | obj (offset : Nat)
  | arr (offset : Nat)
  | other
deriving DecidableEq

/-- One `JavaFrame` entry of the frame chain: `stackSlots` (length
`maxStack`) and `localSlots` (length `maxLocal`), each slot holding a
possibly-null reference. -/
structure JavaFrame where
  stackSlots : List (Option JType)
  localSlots : List (Option JType)
deriving DecidableEq

/-- Modelled from the spec: the heap collaborator (`JavaHeap`, not under
`src/`) exposes iterable containers of all live objects, arrays and monitors
keyed by a stable offset.  Object and array entries map the offset to the
value's reference slots (fields resp. elements); monitor entries are keyed by
the associated offset. -/
structure JavaHeap where
  objectContainer : List (Nat × List (Option JType))
  arrayContainer : List (Nat × List (Option JType))
  monitorContainer : List Nat
deriving DecidableEq

/-- Modelled from the spec: the method-area collaborator (`MethodArea`, not
under `src/`) exposes iteration over all loaded classes and, for each, its
`staticVars` map from offset to (non-null) value. -/
abbrev ClassTable := List (List (Nat × JType))

/-- The collector's mutable state: the two mark bitmaps, the
over-memory-threshold flag, and the recorded frame-chain snapshot. -/
structure GCState where
  objectBitmap : List Nat
  arrayBitmap : List Nat
  overMemoryThreshold : Bool
  frames : List JavaFrame
deriving DecidableEq

/-- Failure modes of the embedded marker: `outOfFuel` models divergence of
the unbounded C++ recursion, `shouldNotReachHere` models the fatal
`SHOULD_NOT_REACH_HERE` abort. -/
inductive MarkError where
  | outOfFuel
  | shouldNotReachHere
deriving DecidableEq

/-- Modelled from the spec: `GCPolicy` (in `GC.h`, not under `src/`) is an
enumeration; only `GC_MARK_AND_SWEEP` is defined, and `gc`'s `switch` has a
`default` fallback behaving identically, represented by `GC_OTHER`. -/
inductive GCPolicy where
  | GC_MARK_AND_SWEEP
  | GC_OTHER
deriving DecidableEq

/-- Modelled from the spec: `JavaHeap::getFields` returns the reference
slots of the object stored at the given offset (empty if absent). -/
def getFields (heap : JavaHeap) (off : Nat) : List (Option JType) :=
  match heap.objectContainer.find? (fun e => e.1 == off) with
  | some e => e.2
  | none => []

/-- Modelled from the spec: `JavaHeap::getElements` returns the element
slots of the array stored at the given offset (empty if absent). -/
def getElements (heap : JavaHeap) (off : Nat) : List (Option JType) :=
  match heap.arrayContainer.find? (fun e => e.1 == off) with
  | some e => e.2
  | none => []

/-- Marks each slot of a list in turn with the given marker, threading the
state and propagating the first error; this is the sequentialization of the
`for` loops over fields / elements / slots in `GC.cpp`. -/
def markSlotsWith (f : Option JType → GCState → Except MarkError GCState) :
    List (Option JType) → GCState → Except MarkError GCState
  | [], s => .ok s
  | r :: rs, s =>
    match f r s with
    | .ok s1 => markSlotsWith f rs s1
    | .error e => .error e

/-- `ConcurrentGC::mark` (GC.cpp lines 69–99): null is a no-op; a `JObject`
has its offset inserted into the object bitmap and its fields marked
recursively; a `JArray` has its offset inserted into the array bitmap and
its elements marked recursively; any other variant hits
`SHOULD_NOT_REACH_HERE`.  The fuel bounds the recursion depth. -/
def mark (heap : JavaHeap) : Nat → Option JType → GCState → Except MarkError GCState
  | _, none, s => .ok s
  | 0, some _, _ => .error MarkError.outOfFuel
  | fuel + 1, some (JType.obj off), s =>
    markSlotsWith (mark heap fuel) (getFields heap off)
      { s with objectBitmap := s.objectBitmap.insert off }
  | fuel + 1, some (JType.arr off), s =>
    markSlotsWith (mark heap fuel) (getElements heap off)
      { s with arrayBitmap := s.arrayBitmap.insert off }
  | _ + 1, some JType.other, _ => .error MarkError.shouldNotReachHere

/-- The stack-slot and local-slot marking tasks of
`ConcurrentGC::markAndSweep` (lines 151–166), sequentialized frame by
frame: for each frame, every stack slot and every local slot is marked. -/
def markFrames (heap : JavaHeap) (fuel : Nat) :
    List JavaFrame → GCState → Except MarkError GCState
  | [], s => .ok s
  | f :: fs, s =>
    match markSlotsWith (mark heap fuel) f.stackSlots s with
    | .error e => .error e
    | .ok s1 =>
      match markSlotsWith (mark heap fuel) f.localSlots s1 with
      | .error e => .error e
      | .ok s2 => markFrames heap fuel fs s2

/-- One step of the static-fields marking lambda (lines 171–183): inspect
the runtime variant of the static value and insert the entry's offset into
the matching bitmap; other variants are skipped.  Note the lambda does not
recurse into the value's fields or elements. -/
def markStaticVar (s : GCState) (entry : Nat × JType) : GCState :=
  match entry.2 with
  | JType.obj _ => { s with objectBitmap := s.objectBitmap.insert entry.1 }
  | JType.arr _ => { s with arrayBitmap := s.arrayBitmap.insert entry.1 }
  | JType.other => s

/-- The static-fields marking task of `ConcurrentGC::markAndSweep`
(lines 168–185): for every class of the class table, every static variable
is processed by `markStaticVar`. -/
def markStatics (classTable : ClassTable) (s : GCState) : GCState :=
  classTable.foldl (fun acc c => c.foldl markStaticVar acc) s

/-- `ConcurrentGC::sweep` (lines 101–148): the object container keeps
exactly the entries whose offset is in the object bitmap, the array
container those in the array bitmap, and the monitor container erases an
entry when its offset is absent from the object bitmap *or* absent from the
array bitmap (so it keeps an entry only when the offset is in both). -/
def sweep (s : GCState) (heap : JavaHeap) : JavaHeap :=
  { objectContainer := heap.objectContainer.filter fun e => s.objectBitmap.contains e.1
    arrayContainer := heap.arrayContainer.filter fun e => s.arrayBitmap.contains e.1
    monitorContainer := heap.monitorContainer.filter fun off =>
      s.objectBitmap.contains off && s.arrayBitmap.contains off }

/-- `ConcurrentGC::markAndSweep` (lines 150–197): mark all stack and local
slots of every frame of the recorded chain, mark the static fields, then
sweep.  All mark futures are joined before `sweep()` runs, so sweeping sees
the final bitmaps. -/
def markAndSweep (s : GCState) (heap : JavaHeap) (classTable : ClassTable)
    (fuel : Nat) : Except MarkError (GCState × JavaHeap) :=
  match markFrames heap fuel s.frames s with
  | .error e => .error e
  | .ok s1 =>
    let s2 := markStatics classTable s1
    .ok (s2, sweep s2 heap)

/-- The epilogue of `ConcurrentGC::gc` (lines 63–66): clear both bitmaps
and the threshold flag (the pool signals carry no state here). -/
def gcEpilogue : Except MarkError (GCState × JavaHeap) →
    Except MarkError (GCState × JavaHeap)
  | .error e => .error e
  | .ok (s, h) =>
    .ok ({ s with objectBitmap := [], arrayBitmap := [], overMemoryThreshold := false }, h)

/-- `ConcurrentGC::gc` (lines 46–67): record the frame chain, return at
once if the threshold flag is clear, otherwise dispatch on the policy (every
branch runs mark-and-sweep), then clear the bitmaps and the flag. -/
def gc (s : GCState) (frames : List JavaFrame) (policy : GCPolicy)
    (heap : JavaHeap) (classTable : ClassTable) (fuel : Nat) :
    Except MarkError (GCState × JavaHeap) :=
  let s1 : GCState := { s with frames := frames }
  if s1.overMemoryThreshold = false then
    .ok (s1, heap)
  else
    match policy with
    | GCPolicy.GC_MARK_AND_SWEEP => gcEpilogue (markAndSweep s1 heap classTable fuel)
    | GCPolicy.GC_OTHER => gcEpilogue (markAndSweep s1 heap classTable fuel)

/-- The coordinator-visible events of a collection cycle, used to state
ordering properties: submissions and joins of the marking tasks, the pool
signals, the start of `sweep()`, and a `stopTheWorld()` call (which `gc`'s
body, lines 46–67, never performs). -/
inductive GCEvent where
  | stopTheWorldCall
  | signalWork
  | submitStackMark (i : Nat)
  | submitLocalMark (i : Nat)
  | submitStaticMark
  | joinStaticMark
  | joinStackMark (i : Nat)
  | joinLocalMark (i : Nat)
  | sweepStart
  | signalWait
deriving DecidableEq

/-- The coordinator's event sequence inside `ConcurrentGC::markAndSweep`
before `sweep()` is invoked (lines 151–194): per frame, submit the
stack-slot and local-slot marking tasks; submit the static-fields task; join
the static-fields future; join every stack future; join every local
future. -/
def preSweepTrace (frames : List JavaFrame) : List GCEvent :=
  ((List.range frames.length).flatMap fun i =>
    [GCEvent.submitStackMark i, GCEvent.submitLocalMark i])
  ++ [GCEvent.submitStaticMark, GCEvent.joinStaticMark]
  ++ (List.range frames.length).map GCEvent.joinStackMark
  ++ (List.range frames.length).map GCEvent.joinLocalMark

/-- The full coordinator event sequence of `ConcurrentGC::markAndSweep`
(lines 150–197): the pre-sweep submissions and joins, then the call to
`sweep()`. -/
def markAndSweepTrace (frames : List JavaFrame) : List GCEvent :=
  preSweepTrace frames ++ [GCEvent.sweepStart]

/-- The coordinator event sequence of one `ConcurrentGC::gc` call
(lines 46–67): empty when the threshold flag is clear; otherwise
`signalWork`, the `markAndSweep` events, and `signalWait`. -/
def gcTrace (frames : List JavaFrame) (s : GCState) : List GCEvent :=
  if s.overMemoryThreshold = false then []
  else GCEvent.signalWork :: (markAndSweepTrace frames ++ [GCEvent.signalWait])

/-- A reference slot is well formed when it is null or refers to an object
or array variant (never a bare `other` value). -/
def slotOk : Option JType → Bool
  | some JType.other => false
  | _ => true

/-- A heap is well formed when every field slot of every object and every
element slot of every array is a well-formed reference slot. -/
def wellFormedHeap (heap : JavaHeap) : Bool :=
  heap.objectContainer.all (fun e => e.2.all slotOk) &&
  heap.arrayContainer.all (fun e => e.2.all slotOk)

/-- `ConcurrentGC::stopTheWorld` (lines 12–19): an arriving caller
increments the rendezvous counter. -/
def stopTheWorldArrive (safepointWaitCnt : Nat) : Nat := safepointWaitCnt + 1

/-- The wait condition of `ConcurrentGC::stopTheWorld`: the caller stays
blocked while the rendezvous counter differs from the executor's thread
count. -/
def stopTheWorldBlocked (safepointWaitCnt threadNum : Nat) : Bool :=
  safepointWaitCnt != threadNum

/-- An empty heap, used as a concrete input for witnesses. -/
def emptyHeap : JavaHeap :=
  { objectContainer := [], arrayContainer := [], monitorContainer := [] }

/-- A collector state with both bitmaps empty and the threshold flag clear. -/
def idleState : GCState :=
  { objectBitmap := [], arrayBitmap := [], overMemoryThreshold := false, frames := [] }

/-- A collector state with both bitmaps empty and the threshold flag set. -/
def pressedState : GCState :=
  { objectBitmap := [], arrayBitmap := [], overMemoryThreshold := true, frames := [] }

/-- Concrete heap for the static-root test: object 1 (whose single field
references object 2) and object 2 (no fields) live in the object
container. -/
def staticHeap : JavaHeap :=
  { objectContainer := [(1, [some (JType.obj 2)]), (2, [])]
    arrayContainer := []
    monitorContainer := [] }

/-- Concrete class table for the static-root test: one class whose single
static variable at offset 1 holds object 1. -/
def staticClassTable : ClassTable := [[(1, JType.obj 1)]]

/-- Concrete heap for the monitor-sweep test: object 5 with no fields, and
a monitor entry associated with offset 5. -/
def monitorHeap : JavaHeap :=
  { objectContainer := [(5, [])], arrayContainer := [], monitorContainer := [5] }

/-- Concrete frame for the monitor-sweep test: a single stack slot holding
a reference to object 5. -/
def monitorFrame : JavaFrame :=
  { stackSlots := [some (JType.obj 5)], localSlots := [] }

/-- A frame with no stack and no local slots. -/
def emptyFrame : JavaFrame := { stackSlots := [], localSlots := [] }

/-- A collector state whose recorded frame chain is non-empty, with both
bitmaps empty and the threshold flag clear. -/
def idleStateWithFrame : GCState :=
  { objectBitmap := [], arrayBitmap := [], overMemoryThreshold := false,
    frames := [monitorFrame] }

/-- C5: marking a null reference never faults and inserts nothing into
either mark set — `mark` returns the state unchanged for every fuel
bound. -/
theorem mark_null_is_noop (heap : JavaHeap) (fuel : Nat) (s : GCState) :
    mark heap fuel none s = Except.ok s := by
  cases fuel <;> rfl

/-- C9: for every frame chain, heap, class table, fuel bound and collector
state, `gc` run with any policy value produces exactly the state produced
with `GC_MARK_AND_SWEEP` — every policy branch converges on
mark-and-sweep. -/
theorem gc_policy_irrelevant (s : GCState) (frames : List JavaFrame)
    (policy : GCPolicy) (heap : JavaHeap) (classTable : ClassTable) (fuel : Nat) :
    gc s frames policy heap classTable fuel =
      gc s frames GCPolicy.GC_MARK_AND_SWEEP heap classTable fuel := by
  cases policy <;> rfl

/-- C4: invoking `gc` while the over-memory-threshold flag is clear returns
immediately with every heap container, both mark sets, and the flag itself
unchanged — the only difference is the recorded frame-chain snapshot. -/
theorem gc_noop_when_threshold_clear (s : GCState) (frames : List JavaFrame)
    (policy : GCPolicy) (heap : JavaHeap) (classTable : ClassTable) (fuel : Nat)
    (h : s.overMemoryThreshold = false) :
    gc s frames policy heap classTable fuel =
      Except.ok ({ s with frames := frames }, heap) := by
  simp [gc, h]

/-- Witness for C4 at a concrete input. -/
theorem gc_noop_when_threshold_clear_witness :
    idleState.overMemoryThreshold = false ∧
    gc idleState [monitorFrame] GCPolicy.GC_MARK_AND_SWEEP monitorHeap [] 1 =
      Except.ok ({ idleState with frames := [monitorFrame] }, monitorHeap) :=
  ⟨rfl, gc_noop_when_threshold_clear idleState [monitorFrame]
    GCPolicy.GC_MARK_AND_SWEEP monitorHeap [] 1 rfl⟩

/-- C10: `gc` stores its frame-chain argument before checking the
threshold flag, so even a spurious invocation with the flag clear records
the argument as the new frame-chain snapshot. -/
theorem gc_records_frames_even_when_idle (s : GCState) (frames : List JavaFrame)
    (policy : GCPolicy) (heap : JavaHeap) (classTable : ClassTable) (fuel : Nat)
    (h : s.overMemoryThreshold = false) :
    (gc s frames policy heap classTable fuel).map (fun r => r.1.frames) =
      Except.ok frames := by
  simp [gc, h, Except.map]

/-- Witness for C10 at a concrete input whose previously recorded frame
chain differs from the argument. -/
theorem gc_records_frames_even_when_idle_witness :
    idleStateWithFrame.frames ≠ ([] : List JavaFrame) ∧
    idleStateWithFrame.overMemoryThreshold = false ∧
    (gc idleStateWithFrame [] GCPolicy.GC_MARK_AND_SWEEP emptyHeap [] 1).map
      (fun r => r.1.frames) = Except.ok ([] : List JavaFrame) :=
  ⟨by decide, rfl, gc_records_frames_even_when_idle idleStateWithFrame []
    GCPolicy.GC_MARK_AND_SWEEP emptyHeap [] 1 rfl⟩

/-- C6: every collecting cycle that returns normally leaves both mark
bitmaps empty and the over-memory-threshold flag cleared. -/
theorem gc_cycle_clears_bitmaps_and_flag (s : GCState) (frames : List JavaFrame)
    (policy : GCPolicy) (heap : JavaHeap) (classTable : ClassTable) (fuel : Nat)
    (s2 : GCState) (h2 : JavaHeap)
    (hflag : s.overMemoryThreshold = true)
    (hrun : gc s frames policy heap classTable fuel = Except.ok (s2, h2)) :
    s2.objectBitmap = [] ∧ s2.arrayBitmap = [] ∧ s2.overMemoryThreshold = false := by
  cases policy <;>
  · simp only [gc, hflag, reduceIte] at hrun
    rcases hmas : markAndSweep { s with overMemoryThreshold := true, frames := frames }
        heap classTable fuel with e | p
    · rw [hmas] at hrun
      exact absurd hrun (by simp [gcEpilogue])
    · rw [hmas] at hrun
      have hred : gcEpilogue (Except.ok p) =
          Except.ok ({ p.1 with
                       objectBitmap := [], arrayBitmap := [],
                       overMemoryThreshold := false }, p.2) := rfl
      rw [hred] at hrun
      injection hrun with hp
      have hfst := congrArg Prod.fst hp
      simp only [] at hfst
      rw [← hfst]
      exact ⟨rfl, rfl, rfl⟩

/-- Witness for C6 at a concrete input. -/
theorem gc_cycle_clears_bitmaps_and_flag_witness :
    idleState.objectBitmap = [] ∧ idleState.arrayBitmap = [] ∧
    idleState.overMemoryThreshold = false :=
  gc_cycle_clears_bitmaps_and_flag pressedState [] GCPolicy.GC_MARK_AND_SWEEP
    emptyHeap [] 1 idleState emptyHeap rfl rfl

/-- C1 (failing input): object 2 is reachable by reference-following
closure from the static field holding object 1 — the marker itself, started
at that root, marks both 1 and 2 — yet a full `gc` cycle marks only the
static entry's own offset (the static-fields task does not recurse), so
sweep erases object 2 from the object container. -/
theorem static_root_reachable_object_collected :
    mark staticHeap 3 (some (JType.obj 1)) pressedState =
      Except.ok { objectBitmap := [2, 1], arrayBitmap := [],
                  overMemoryThreshold := true, frames := [] } ∧
    gc pressedState [] GCPolicy.GC_MARK_AND_SWEEP staticHeap staticClassTable 10 =
      Except.ok ({ objectBitmap := [], arrayBitmap := [],
                   overMemoryThreshold := false, frames := [] },
        { objectContainer := [(1, [some (JType.obj 2)])], arrayContainer := [],
          monitorContainer := [] }) :=
  ⟨rfl, rfl⟩

/-- C2 (failing input): after marking, offset 5 is in the object bitmap and
absent from the array bitmap, yet the sweep erases the monitor entry at
offset 5 because its eviction test fires when the offset is absent from
either bitmap. -/
theorem monitor_with_object_marked_offset_erased :
    markAndSweep { pressedState with frames := [monitorFrame] } monitorHeap [] 10 =
      Except.ok ({ objectBitmap := [5], arrayBitmap := [],
                   overMemoryThreshold := true, frames := [monitorFrame] },
        { objectContainer := [(5, [])], arrayContainer := [],
          monitorContainer := [] }) ∧
    gc pressedState [monitorFrame] GCPolicy.GC_MARK_AND_SWEEP monitorHeap [] 10 =
      Except.ok ({ objectBitmap := [], arrayBitmap := [],
                   overMemoryThreshold := false, frames := [monitorFrame] },
        { objectContainer := [(5, [])], arrayContainer := [],
          monitorContainer := [] }) :=
  ⟨rfl, rfl⟩

/-- C3 (counterexample): a collecting cycle at a concrete input — threshold
flag set, empty frame chain — contains zero `stopTheWorld` calls in its
coordinator event trace, not exactly one. -/
theorem gc_cycle_stopTheWorld_count_not_one :
    pressedState.overMemoryThreshold = true ∧
    (gcTrace [] pressedState).count GCEvent.stopTheWorldCall ≠ 1 := by
  exact ⟨rfl, by decide⟩

/-- C3 (amended): a collecting cycle never invokes `stopTheWorld` — the
coordinator's event trace of `gc` contains no `stopTheWorld` call at all;
mark-and-sweep proceeds without any safepoint rendezvous by the
coordinator. -/
theorem gc_cycle_never_calls_stopTheWorld (frames : List JavaFrame) (s : GCState)
    (h : s.overMemoryThreshold = true) :
    GCEvent.stopTheWorldCall ∉ gcTrace frames s := by
  simp [gcTrace, h, markAndSweepTrace, preSweepTrace, List.mem_append,
    List.mem_flatMap, List.mem_range, List.mem_map]

/-- Witness for the amended C3 at a concrete input. -/
theorem gc_cycle_never_calls_stopTheWorld_witness :
    pressedState.overMemoryThreshold = true ∧
    GCEvent.stopTheWorldCall ∉ gcTrace [monitorFrame] pressedState :=
  ⟨rfl, gc_cycle_never_calls_stopTheWorld [monitorFrame] pressedState rfl⟩

/-- C7: in the coordinator's `markAndSweep` event trace, the start of
`sweep()` is the unique last event, and every marking join — the
static-fields join and the stack-slot and local-slot joins of every frame —
occurs strictly before it, in the pre-sweep prefix. -/
theorem sweep_begins_after_every_mark_join (frames : List JavaFrame) :
    (markAndSweepTrace frames).getLast? = some GCEvent.sweepStart ∧
    (markAndSweepTrace frames).dropLast = preSweepTrace frames ∧
    GCEvent.sweepStart ∉ preSweepTrace frames ∧
    GCEvent.joinStaticMark ∈ preSweepTrace frames ∧
    ∀ i, i < frames.length →
      GCEvent.joinStackMark i ∈ preSweepTrace frames ∧
      GCEvent.joinLocalMark i ∈ preSweepTrace frames := by
  refine ⟨?_, ?_, ?_, ?_, ?_⟩
  · exact List.getLast?_concat _
  · exact List.dropLast_concat
  · simp [preSweepTrace, List.mem_append, List.mem_flatMap, List.mem_range,
      List.mem_map]
  · simp [preSweepTrace, List.mem_append]
  · intro i hi
    constructor
    · exact List.mem_append_left _ (List.mem_append_right _
        (List.mem_map_of_mem _ (List.mem_range.mpr hi)))
    · exact List.mem_append_right _
        (List.mem_map_of_mem _ (List.mem_range.mpr hi))

/-- Witness for C7 at a concrete one-frame chain. -/
theorem sweep_begins_after_every_mark_join_witness :
    (markAndSweepTrace [emptyFrame]).getLast? = some GCEvent.sweepStart ∧
    GCEvent.joinStackMark 0 ∈ preSweepTrace [emptyFrame] ∧
    GCEvent.joinLocalMark 0 ∈ preSweepTrace [emptyFrame] := by
  obtain ⟨h1, _, _, _, h5⟩ := sweep_begins_after_every_mark_join [emptyFrame]
  exact ⟨h1, (h5 0 (by decide)).1, (h5 0 (by decide)).2⟩

/-- If the step marker never yields the invariant-violation abort on
well-formed slots, neither does `markSlotsWith` over a list of well-formed
slots. -/
theorem markSlotsWith_no_abort
    (f : Option JType → GCState → Except MarkError GCState)
    (hf : ∀ r s, slotOk r = true → f r s ≠ Except.error MarkError.shouldNotReachHere) :
    ∀ (l : List (Option JType)) (s : GCState), l.all slotOk = true →
      markSlotsWith f l s ≠ Except.error MarkError.shouldNotReachHere := by
  intro l
  induction l with
  | nil =>
    intro s _
    simp [markSlotsWith]
  | cons r rs ih =>
    intro s hl
    simp only [List.all_cons, Bool.and_eq_true] at hl
    unfold markSlotsWith
    rcases hfr : f r s with e | s1
    · have hne := hf r s hl.1
      rw [hfr] at hne
      simpa using hne
    · simpa using ih s1 hl.2

/-- In a well-formed heap all field slots returned by `getFields` are
well-formed. -/
theorem getFields_all_slotOk (heap : JavaHeap)
    (hwf : wellFormedHeap heap = true) (off : Nat) :
    (getFields heap off).all slotOk = true := by
  unfold getFields
  rcases hfind : heap.objectContainer.find? (fun e => e.1 == off) with _ | e
  · rw [hfind]
    rfl
  · rw [hfind]
    have hmem := List.mem_of_find?_eq_some hfind
    unfold wellFormedHeap at hwf
    simp only [Bool.and_eq_true, List.all_eq_true] at hwf
    rw [List.all_eq_true]
    exact hwf.1 e hmem

/-- In a well-formed heap all element slots returned by `getElements` are
well-formed. -/
theorem getElements_all_slotOk (heap : JavaHeap)
    (hwf : wellFormedHeap heap = true) (off : Nat) :
    (getElements heap off).all slotOk = true := by
  unfold getElements
  rcases hfind : heap.arrayContainer.find? (fun e => e.1 == off) with _ | e
  · rw [hfind]
    rfl
  · rw [hfind]
    have hmem := List.mem_of_find?_eq_some hfind
    unfold wellFormedHeap at hwf
    simp only [Bool.and_eq_true, List.all_eq_true] at hwf
    rw [List.all_eq_true]
    exact hwf.2 e hmem

/-- Over a well-formed heap, `mark` started on a null, object, or array
reference never returns the invariant-violation abort, for any fuel. -/
theorem mark_no_abort_on_wellformed (heap : JavaHeap)
    (hwf : wellFormedHeap heap = true) :
    ∀ (fuel : Nat) (r : Option JType) (s : GCState), slotOk r = true →
      mark heap fuel r s ≠ Except.error MarkError.shouldNotReachHere := by
  intro fuel
  induction fuel with
  | zero =>
    intro r s _
    cases r with
    | none => simp [mark]
    | some t => simp [mark]
  | succ n ih =>
    intro r s hr
    cases r with
    | none => simp [mark]
    | some t =>
      cases t with
      | obj off =>
        exact markSlotsWith_no_abort (mark heap n) (fun r1 s1 h1 => ih r1 s1 h1)
          (getFields heap off) _ (getFields_all_slotOk heap hwf off)
      | arr off =>
        exact markSlotsWith_no_abort (mark heap n) (fun r1 s1 h1 => ih r1 s1 h1)
          (getElements heap off) _ (getElements_all_slotOk heap hwf off)
      | other => simp [slotOk] at hr

/-- C8: over a well-formed heap, `mark` on a non-null reference whose
runtime variant is neither object nor array signals the fatal
`SHOULD_NOT_REACH_HERE` abort, while for object and array references that
branch is unreachable: `mark` never returns the abort. -/
theorem mark_unknown_variant_aborts (heap : JavaHeap) (fuel off : Nat)
    (s : GCState) (hwf : wellFormedHeap heap = true) :
    mark heap (fuel + 1) (some JType.other) s =
      Except.error MarkError.shouldNotReachHere ∧
    mark heap fuel (some (JType.obj off)) s ≠
      Except.error MarkError.shouldNotReachHere ∧
    mark heap fuel (some (JType.arr off)) s ≠
      Except.error MarkError.shouldNotReachHere :=
  ⟨rfl,
   mark_no_abort_on_wellformed heap hwf fuel (some (JType.obj off)) s rfl,
   mark_no_abort_on_wellformed heap hwf fuel (some (JType.arr off)) s rfl⟩

/-- Witness for C8 at a concrete input. -/
theorem mark_unknown_variant_aborts_witness :
    wellFormedHeap monitorHeap = true ∧
    (mark monitorHeap 1 (some JType.other) idleState =
       Except.error MarkError.shouldNotReachHere ∧
     mark monitorHeap 0 (some (JType.obj 7)) idleState ≠
       Except.error MarkError.shouldNotReachHere ∧
     mark monitorHeap 0 (some (JType.arr 7)) idleState ≠
       Except.error MarkError.shouldNotReachHere) :=
  ⟨rfl, mark_unknown_variant_aborts monitorHeap 0 7 idleState rfl⟩

end ConcurrentGC
